import Mathlib

/-!
Verification of the Clinical-Daily article acquisition and normalization
pipeline (PubMed fetch/normalize service, client-side filter/sort engine,
and summary-slot writer), shallowly embedded from the TypeScript source.

String primitives of JavaScript (`toLowerCase`, `toUpperCase`, `trim`,
`includes`, `join`, the `||` default idiom) are modelled over the character
data of Lean strings, faithful on the ASCII range the program manipulates.
-/

/-- Models `String.prototype.toLowerCase` (ASCII-faithful). -/
def jsToLower (s : String) : String :=
  String.mk (s.data.map Char.toLower)

/-- Models `String.prototype.toUpperCase` (ASCII-faithful). -/
def jsToUpper (s : String) : String :=
  String.mk (s.data.map Char.toUpper)

/-- Contiguous-sublist test on character lists, scanning left to right. -/
def listIsInfixOf (needle : List Char) : List Char → Bool
  | [] => needle.isEmpty
  | c :: rest => needle.isPrefixOf (c :: rest) || listIsInfixOf needle rest

/-- Models `hay.includes(needle)` for JavaScript strings. -/
def jsIncludes (hay needle : String) : Bool :=
  listIsInfixOf needle.data hay.data

/-- Models `String.prototype.trim` (whitespace stripped from both ends). -/
def jsTrim (s : String) : String :=
  String.mk (((s.data.dropWhile Char.isWhitespace).reverse.dropWhile Char.isWhitespace).reverse)

/-- Models the JavaScript idiom `x || d` on an optional string: `null`,
`undefined` and the empty string are all falsy and select the default. -/
def jsOrElse : Option String → String → String
  | some s, d => if s = "" then d else s
  | none, d => d

/-- Models `Array.prototype.join(sep)` on a list of strings. -/
def jsJoin (sep : String) : List String → String
  | [] => ""
  | [s] => s
  | s :: t :: rest => s ++ sep ++ jsJoin sep (t :: rest)

/-! ## Data model (src/types.ts) -/

/-- The five-field structured synopsis (`AISummary` in src/types.ts). -/
structure AISummary where
  researchDesign : String
  studyPopulation : String
  interventions : String
  endpoints : String
  results : String
deriving Repr, DecidableEq

/-- The normalized article entity (`Article` in src/types.ts); the optional
`cachedSummary` slot models the `cachedSummary?` field. -/
structure Article where
  id : String
  title : String
  journal : String
  authors : List String
  pubDate : String
  abstract : String
  doiLink : String
  isTrial : Bool
  cachedSummary : Option AISummary
deriving Repr, DecidableEq

/-! ## Raw record shape

One `PubmedArticle` node of the EFetch XML response, as observed by the
normalizer loop of `fetchLatestArticles`: every sub-element the loop queries
becomes an explicit optional field (`none` models an absent element or a
`null` text content). -/

/-- One `AbstractText` element: its optional `Label` attribute and its
optional text content. -/
structure AbstractSeg where
  label : Option String
  text : Option String
deriving Repr, DecidableEq

/-- One `Author` element with its optional `LastName` and `Initials`. -/
structure RawAuthor where
  lastName : Option String
  initials : Option String
deriving Repr, DecidableEq

/-- One raw `PubmedArticle` record. `hasArticle` is whether
`node.querySelector("Article")` finds an element; `pubTypeTokens` are the
text contents of the `PublicationType` elements. -/
structure RawRecord where
  hasArticle : Bool
  articleTitle : Option String
  abstractTexts : List AbstractSeg
  authors : List RawAuthor
  journalTitle : Option String
  pubYear : Option String
  pubMonth : Option String
  pubDay : Option String
  doi : Option String
  pmid : Option String
  pubTypeTokens : List (Option String)
deriving Repr, DecidableEq

/-! ## Per-field extraction (normalizer loop body of `fetchLatestArticles`) -/

/-- One step of the abstract mapper:
`const label = el.getAttribute("Label"); const text = el.textContent?.trim();
if (!text) return null; return label ? label.toUpperCase() + ": " + text : text;`
A missing or all-whitespace text yields `none` (the `null` the JS code
returns); an absent or empty label is falsy, so no prefix is attached. -/
def renderAbstractSeg (seg : AbstractSeg) : Option String :=
  match seg.text with
  | none => none
  | some raw =>
    let text := jsTrim raw
    if text = "" then none
    else
      match seg.label with
      | some label =>
        if label = "" then some text else some (jsToUpper label ++ ": " ++ text)
      | none => some text

/-- The abstract field: if at least one `AbstractText` element exists, the
non-null rendered segments are joined with a blank line (`filter(Boolean)`
drops the `null` entries); with zero elements the sentinel is used. -/
def extractAbstract (segs : List AbstractSeg) : String :=
  if segs.length > 0 then
    jsJoin "\n\n" ((segs.map renderAbstractSeg).filterMap id)
  else
    "No abstract available."

/-- One author rendered as `last + " " + initials`, each part defaulting to
the empty string (`?.textContent || ""`). -/
def renderAuthor (a : RawAuthor) : String :=
  (a.lastName.getD "") ++ " " ++ (a.initials.getD "")

/-- The author list before the sentinel check: rendered entries truncated by
`.slice(0, 3)`, then `if (authorList.length > 3) authors.push("et al.")`. -/
def extractAuthors (authorList : List RawAuthor) : List String :=
  let authors := (authorList.map renderAuthor).take 3
  if authorList.length > 3 then authors ++ ["et al."] else authors

/-- The sentinel applied at push time:
`authors: authors.length ? authors : ["Unknown Authors"]`. -/
def authorsOrUnknown (authors : List String) : List String :=
  if authors.length ≠ 0 then authors else ["Unknown Authors"]

/-- Journal reconciliation: the if/else-if chain of `fetchLatestArticles`,
first match wins, canonical strings from the `JournalName` enum of
src/types.ts; no match keeps the raw title. -/
def reconcileJournal (journalTitleRaw : String) : String :=
  if jsIncludes journalTitleRaw "New England" then "NEJM"
  else if journalTitleRaw = "JAMA" then "JAMA"
  else if jsIncludes journalTitleRaw "Lancet" then "The Lancet"
  else if journalTitleRaw = "BMJ" then "BMJ"
  else if jsIncludes journalTitleRaw "Nature" then "Nature Medicine"
  else if jsIncludes journalTitleRaw "Annals" then "Annals of Internal Medicine"
  else if jsIncludes journalTitleRaw "Oncology" then "Journal of Clinical Oncology"
  else journalTitleRaw

/-- Models `!isNaN(Number(s))` for the single-character strings the date
formatter applies it to: a digit parses to its value and a whitespace-only
string parses to `0`; anything else is `NaN` (ASCII-faithful). -/
def isSingleNumericChar (s : String) : Bool :=
  match s.data with
  | [c] => c.isDigit || c.isWhitespace
  | _ => false

/-- Zero-padding of month/day:
`m.length === 1 && !isNaN(Number(m)) ? "0" + m : m`. -/
def zeroPad (s : String) : String :=
  if s.length = 1 && isSingleNumericChar s then "0" ++ s else s

/-- The `pubDate` field: `Year`, `Month` and `Day` text contents each
defaulted independently (`|| currentYear.toString()`, `|| "01"`), then
month and day zero-padded. -/
def formatPubDate (currentYear : Nat) (y m d : Option String) : String :=
  let year := jsOrElse y (Nat.repr currentYear)
  let month := jsOrElse m "01"
  let day := jsOrElse d "01"
  year ++ "-" ++ zeroPad month ++ "-" ++ zeroPad day

/-- The PubMed fallback link built from the record's PMID; a missing PMID
interpolates as the string `"undefined"` exactly as a JS template literal
renders `undefined`. -/
def pubmedFallbackLink (pmid : Option String) : String :=
  "https://pubmed.ncbi.nlm.nih.gov/" ++ (match pmid with | some p => p | none => "undefined") ++ "/"

/-- The `doiLink` field: `doi ? "https://doi.org/" + doi : fallback`, where
an empty DOI string is falsy. -/
def buildDoiLink (doi pmid : Option String) : String :=
  match doi with
  | some d => if d = "" then pubmedFallbackLink pmid else "https://doi.org/" ++ d
  | none => pubmedFallbackLink pmid

/-- The fixed keyword set of the trial classifier. -/
def trialKeywords : List String :=
  ["clinical trial", "randomized controlled trial", "meta-analysis", "systematic review"]

/-- One token test: `const t = pt.textContent?.toLowerCase() || "";` then the
four `t.includes(...)` checks. -/
def tokenIsTrialLike (pt : Option String) : Bool :=
  let t := jsToLower (pt.getD "")
  jsIncludes t "clinical trial" || jsIncludes t "randomized controlled trial" ||
    jsIncludes t "meta-analysis" || jsIncludes t "systematic review"

/-- The `isTrial` flag: the `forEach` loop that sets `isTrial = true` on any
matching token, modelled as a fold over the token list. -/
def computeIsTrial (pubTypeTokens : List (Option String)) : Bool :=
  pubTypeTokens.foldl (fun isTrial pt => if tokenIsTrialLike pt then true else isTrial) false

/-- One loop iteration of the normalizer: a node without an `Article`
element is skipped (`continue`); otherwise every field is extracted with its
fallback. `uid` stands for the `crypto.randomUUID()` call and `currentYear`
for `new Date().getFullYear()`. -/
def normalizeRecord (currentYear : Nat) (uid : String) (r : RawRecord) : Option Article :=
  if r.hasArticle = false then none
  else some {
    id := uid
    title := jsOrElse r.articleTitle "Untitled"
    journal := reconcileJournal (jsOrElse r.journalTitle "")
    authors := authorsOrUnknown (extractAuthors r.authors)
    pubDate := formatPubDate currentYear r.pubYear r.pubMonth r.pubDay
    abstract := extractAbstract r.abstractTexts
    doiLink := buildDoiLink r.doi r.pmid
    isTrial := computeIsTrial r.pubTypeTokens
    cachedSummary := none }

/-- The whole normalizer loop over the parsed `PubmedArticle` nodes; the
UUID generator is modelled as an external supply indexed by node position. -/
def normalizeRecords (currentYear : Nat) (uuid : Nat → String) (records : List RawRecord) : List Article :=
  records.enum.filterMap (fun p => normalizeRecord currentYear (uuid p.1) p.2)

/-! ## Query builder and fetch pipeline (`fetchLatestArticles`) -/

/-- The values of the `PublicationType` enum (src/types.ts), in the order
`Object.values` yields them. -/
def allPublicationTypes : List String :=
  ["Clinical Trial", "Randomized Controlled Trial", "Meta-Analysis", "Systematic Review"]

/-- The `PUB_TYPE_QUERY_MAP` lookup: `PUB_TYPE_QUERY_MAP[t]` is `undefined`
for an unrecognized name, modelled as `none`. -/
def PUB_TYPE_QUERY_MAP (t : String) : Option String :=
  if t = "Clinical Trial" then some "\"Clinical Trial\"[Publication Type]"
  else if t = "Randomized Controlled Trial" then some "\"Randomized Controlled Trial\"[Publication Type]"
  else if t = "Meta-Analysis" then some "\"Meta-Analysis\"[Publication Type]"
  else if t = "Systematic Review" then some "\"Systematic Review\"[Publication Type]"
  else none

/-- `const typesToUse = pubTypes.length > 0 ? pubTypes : Object.values(PublicationType);` -/
def typesToUse (pubTypes : List String) : List String :=
  if pubTypes.length > 0 then pubTypes else allPublicationTypes

/-- `const typeQueries = typesToUse.map(t => PUB_TYPE_QUERY_MAP[t] || "").filter(Boolean);` -/
def typeQueriesOf (pubTypes : List String) : List String :=
  ((typesToUse pubTypes).map (fun t => (PUB_TYPE_QUERY_MAP t).getD "")).filter (fun s => s ≠ "")

/-- The emitted publication-type clause:
`const pubTypeQuery = "(" + typeQueries.join(" OR ") + ")";` -/
def buildPubTypeQuery (pubTypes : List String) : String :=
  "(" ++ jsJoin " OR " (typeQueriesOf pubTypes) ++ ")"

/-- The transport-level outcomes `fetchLatestArticles` can observe, one flag
per point where the body may throw or short-circuit: the search `fetch` call
itself (network error), `searchRes.ok`, `searchRes.json()` (malformed
top-level response), the optional `esearchresult.idlist`, the retrieval
`fetch` call, and `fetchRes.ok`; `records` are the `PubmedArticle` nodes
parsed from the retrieval body (`DOMParser` does not throw). -/
structure FetchEnv where
  searchNetworkError : Bool
  searchOk : Bool
  searchJsonError : Bool
  idlist : Option (List String)
  fetchNetworkError : Bool
  fetchOk : Bool
  records : List RawRecord
  currentYear : Nat
  uuid : Nat → String

/-- The body of `fetchLatestArticles` before its surrounding `try`/`catch`:
each `throw` becomes an `Except.error` carrying the thrown message. -/
def fetchBody (env : FetchEnv) : Except String (List Article) :=
  if env.searchNetworkError then Except.error "TypeError: Failed to fetch"
  else if env.searchOk = false then Except.error "PubMed Search Failed"
  else if env.searchJsonError then Except.error "SyntaxError: Unexpected token"
  else
    match env.idlist with
    | none => Except.ok []
    | some ids =>
      if ids.length = 0 then Except.ok []
      else if env.fetchNetworkError then Except.error "TypeError: Failed to fetch"
      else if env.fetchOk = false then Except.error "PubMed Fetch Failed"
      else Except.ok (normalizeRecords env.currentYear env.uuid env.records)

/-- `fetchLatestArticles` as seen by the caller: the `catch` block maps any
thrown error to the empty article list. -/
def fetchLatestArticles (env : FetchEnv) : List Article :=
  match fetchBody env with
  | Except.ok articles => articles
  | Except.error _ => []

/-! ## Client-side filter/sort engine and summary-slot writer (src/App.tsx) -/

/-- `ALL_JOURNALS = Object.values(JournalName)` (src/constants.ts). -/
def ALL_JOURNALS : List String :=
  ["NEJM", "JAMA", "The Lancet", "BMJ", "Nature Medicine",
   "Annals of Internal Medicine", "Journal of Clinical Oncology"]

/-- The `SortOption` union type of src/types.ts. -/
inductive SortOption where
  | newest
  | oldest
deriving Repr, DecidableEq

/-- The filter predicate of `processedArticles`: journal membership
(`selectedJournals.includes(article.journal)`, exact match) and
case-insensitive substring search over title or abstract. -/
def matchesFilters (selectedJournals : List String) (searchQuery : String) (article : Article) : Bool :=
  selectedJournals.contains article.journal &&
    (jsIncludes (jsToLower article.title) (jsToLower searchQuery) ||
      jsIncludes (jsToLower article.abstract) (jsToLower searchQuery))

/-- The sort comparator of `processedArticles` as a boolean "may precede"
relation: JavaScript keeps `a` before `b` when the comparator returns a
non-positive number, and `localeCompare` on the canonical `YYYY-MM-DD`
strings is lexicographic comparison, so for `newest` the comparator
`b.pubDate.localeCompare(a.pubDate)` is non-positive exactly when
`b.pubDate ≤ a.pubDate`, and symmetrically for `oldest`. -/
def sortLe (sortBy : SortOption) (a b : Article) : Bool :=
  match sortBy with
  | SortOption.newest => decide (b.pubDate ≤ a.pubDate)
  | SortOption.oldest => decide (a.pubDate ≤ b.pubDate)

/-- The `processedArticles` memo: filter, then `Array.prototype.sort` —
stable per the ECMAScript specification, hence modelled by the stable
`List.mergeSort` (a stable sort's output is uniquely determined by the
comparator and the input order). -/
def processedArticles (articles : List Article) (selectedJournals : List String)
    (searchQuery : String) (sortBy : SortOption) : List Article :=
  (articles.filter (matchesFilters selectedJournals searchQuery)).mergeSort (sortLe sortBy)

/-- The `handleSummaryGenerated` state update:
`prev.map(a => a.id === id ? { ...a, cachedSummary: summary } : a)`. -/
def handleSummaryGenerated (prev : List Article) (id : String) (summary : AISummary) : List Article :=
  prev.map (fun a => if a.id = id then { a with cachedSummary := some summary } else a)

/-! ## Claim C1: abstract segment-count rule -/

/-- C1 counterexample: a record whose abstract has exactly one
`AbstractText` segment carrying a `Label` attribute is rendered with the
upper-cased label prefix, not verbatim — the claim's single-segment clause
("no label prefix even when the segment carries a Label attribute") is
false on the code, which applies the label rule uniformly to every
segment. -/
theorem c1_single_segment_counterexample :
    extractAbstract [{ label := some "Background", text := some "Aspirin reduces cardiovascular risk." }] =
      "BACKGROUND: Aspirin reduces cardiovascular risk." ∧
    "BACKGROUND: Aspirin reduces cardiovascular risk." ≠ "Aspirin reduces cardiovascular risk." := by
  constructor
  · decide
  · decide

/-- C1 (amended): with zero `AbstractText` segments the abstract is the
sentinel; with one or more segments the abstract is the non-null rendered
segments joined by a blank line, where every segment — including a lone
one — carrying a non-empty label is rendered as its upper-cased label,
`": "`, and its trimmed text, and an unlabeled segment as its trimmed
text. -/
theorem c1_abstract_segment_rule :
    extractAbstract [] = "No abstract available." ∧
    (∀ segs : List AbstractSeg, segs ≠ [] →
      extractAbstract segs = jsJoin "\n\n" (segs.filterMap renderAbstractSeg)) ∧
    (∀ lab t : String, lab ≠ "" → jsTrim t ≠ "" →
      extractAbstract [{ label := some lab, text := some t }] =
        jsToUpper lab ++ ": " ++ jsTrim t) ∧
    (∀ t : String, jsTrim t ≠ "" →
      extractAbstract [{ label := none, text := some t }] = jsTrim t) := by
  refine ⟨rfl, ?_, ?_, ?_⟩
  · intro segs h
    rw [extractAbstract, if_pos (by simpa using List.length_pos.mpr h)]
    rw [show (List.filterMap id (segs.map renderAbstractSeg)) = segs.filterMap renderAbstractSeg from
      List.filterMap_map renderAbstractSeg id segs]
  · intro lab t hlab ht
    simp [extractAbstract, renderAbstractSeg, jsJoin, hlab, ht]
  · intro t ht
    simp [extractAbstract, renderAbstractSeg, jsJoin, ht]

/-- C1 witness: the amended rule evaluated on one labeled segment and one
unlabeled segment. -/
theorem c1_abstract_segment_rule_witness :
    extractAbstract [{ label := some "Methods", text := some " Double-blind design. " }] =
      "METHODS: Double-blind design." ∧
    extractAbstract [{ label := none, text := some "Plain abstract." }] = "Plain abstract." := by
  constructor
  · exact (c1_abstract_segment_rule.2.2.1 "Methods" " Double-blind design. "
      (by decide) (by decide)).trans (by decide)
  · exact (c1_abstract_segment_rule.2.2.2 "Plain abstract." (by decide)).trans (by decide)

/-- C2: every transport-level failure observable by `fetchLatestArticles`
(search network error, non-success search response, malformed top-level
search JSON, retrieval network error, non-success retrieval response) is
caught and mapped to the empty article list, and an absent or empty
identifier list short-circuits to the empty list as a valid non-error
result. -/
theorem c2_fetch_never_throws :
    ∀ env : FetchEnv,
      (env.searchNetworkError = true → fetchLatestArticles env = []) ∧
      (env.searchOk = false → fetchLatestArticles env = []) ∧
      (env.searchJsonError = true → fetchLatestArticles env = []) ∧
      (env.idlist = none → fetchLatestArticles env = []) ∧
      (env.idlist = some [] → fetchLatestArticles env = []) ∧
      (env.fetchNetworkError = true → fetchLatestArticles env = []) ∧
      (env.fetchOk = false → fetchLatestArticles env = []) := by
  rintro ⟨sne, sok, sje, idl, fne, fok, recs, cy, uu⟩
  cases sne <;> cases sok <;> cases sje <;> cases fne <;> cases fok <;>
    rcases idl with _ | (_ | ⟨i, ids⟩) <;>
    refine ⟨?_, ?_, ?_, ?_, ?_, ?_, ?_⟩ <;> intro h <;>
    simp_all [fetchLatestArticles, fetchBody]

/-- C2 witness: a failed search response yields the empty list. -/
theorem c2_fetch_never_throws_witness :
    fetchLatestArticles
      { searchNetworkError := false, searchOk := false, searchJsonError := false,
        idlist := some ["12345"], fetchNetworkError := false, fetchOk := true,
        records := [], currentYear := 2026, uuid := fun _ => "uuid" } = [] :=
  (c2_fetch_never_throws _).2.1 rfl

/-! ## Claim C3: publication-type clause of the query builder -/

/-- Recognized publication-type names never map to the empty string. -/
theorem pub_type_query_map_ne_empty (t s : String) (h : PUB_TYPE_QUERY_MAP t = some s) :
    s ≠ "" := by
  unfold PUB_TYPE_QUERY_MAP at h
  split_ifs at h <;> simp_all <;> subst h <;> decide

/-- The `|| ""` and `filter(Boolean)` steps together drop exactly the
unrecognized names: they compute `filterMap` over the lookup. -/
theorem filter_truthy_eq_filterMap (f : String → Option String)
    (hf : ∀ t s, f t = some s → s ≠ "") (l : List String) :
    (l.map (fun t => (f t).getD "")).filter (fun s => s ≠ "") = l.filterMap f := by
  induction l with
  | nil => rfl
  | cons hd tl ih =>
    rcases hhd : f hd with _ | s
    · simpa [List.filterMap_cons, hhd] using ih
    · have hs := hf hd s hhd
      simpa [List.filterMap_cons, hhd, hs] using ih

/-- C3 counterexample: a non-empty selection consisting only of an
unrecognized name produces zero disjuncts and the emitted clause is the
empty disjunction `"()"` — the claim's "never an empty disjunction" fails
(the full-set substitution only triggers on an empty selection). -/
theorem c3_empty_disjunction_counterexample :
    ["Case Series"].length > 0 ∧
    typeQueriesOf ["Case Series"] = [] ∧
    buildPubTypeQuery ["Case Series"] = "()" := by
  refine ⟨by decide, by decide, by decide⟩

/-- C3 (amended): the publication-type clause is a disjunction over the
query tokens of the selected types with unrecognized names silently
dropped; an empty selection substitutes the full set of supported types,
whose clause is a non-empty disjunction — but a non-empty selection with
no recognized name yields the empty disjunction `"()"`. -/
theorem c3_pub_type_clause :
    (∀ pubTypes : List String,
      typeQueriesOf pubTypes = (typesToUse pubTypes).filterMap PUB_TYPE_QUERY_MAP) ∧
    typesToUse [] = allPublicationTypes ∧
    (∀ pubTypes : List String, pubTypes ≠ [] → typesToUse pubTypes = pubTypes) ∧
    typeQueriesOf [] ≠ [] := by
  refine ⟨?_, rfl, ?_, by decide⟩
  · intro pubTypes
    exact filter_truthy_eq_filterMap PUB_TYPE_QUERY_MAP pub_type_query_map_ne_empty _
  · intro pubTypes h
    rw [typesToUse, if_pos (by simpa using List.length_pos.mpr h)]

/-- C3 witness: a recognized singleton selection is used as given and keeps
its one token; the empty selection falls back to all four supported
types. -/
theorem c3_pub_type_clause_witness :
    typesToUse ["Meta-Analysis"] = ["Meta-Analysis"] ∧
    typeQueriesOf ["Meta-Analysis"] = ["\"Meta-Analysis\"[Publication Type]"] ∧
    typeQueriesOf [] ≠ [] := by
  refine ⟨c3_pub_type_clause.2.2.1 ["Meta-Analysis"] (by decide), ?_, c3_pub_type_clause.2.2.2⟩
  rw [c3_pub_type_clause.1 ["Meta-Analysis"]]
  decide

/-! ## Claim C4: author truncation rule -/

/-- C4: the rendered author list is truncated to the first 3 entries, a
trailing `"et al."` entry is appended exactly when the source listed more
than 3 raw author elements, and zero source authors yield the single
sentinel entry. -/
theorem c4_author_truncation :
    (∀ authorList : List RawAuthor, authorList.length > 3 →
      authorsOrUnknown (extractAuthors authorList) =
        (authorList.map renderAuthor).take 3 ++ ["et al."] ∧
      (authorsOrUnknown (extractAuthors authorList)).length = 4) ∧
    (∀ authorList : List RawAuthor, authorList ≠ [] → authorList.length ≤ 3 →
      authorsOrUnknown (extractAuthors authorList) = authorList.map renderAuthor) ∧
    authorsOrUnknown (extractAuthors []) = ["Unknown Authors"] := by
  refine ⟨?_, ?_, by decide⟩
  · intro l h
    have hex : extractAuthors l = (l.map renderAuthor).take 3 ++ ["et al."] := by
      rw [extractAuthors, if_pos h]
    have hlen : ((l.map renderAuthor).take 3 ++ ["et al."]).length = 4 := by
      simp only [List.length_append, List.length_take, List.length_map,
        List.length_cons, List.length_nil]
      omega
    constructor
    · rw [authorsOrUnknown, hex, if_pos (by rw [hlen]; omega)]
    · rw [authorsOrUnknown, hex, if_pos (by rw [hlen]; omega), hlen]
  · intro l hne hle
    have hex : extractAuthors l = l.map renderAuthor := by
      rw [extractAuthors, if_neg (by omega)]
      exact List.take_of_length_le (by simpa using hle)
    rw [authorsOrUnknown, hex, if_pos (by simpa using hne)]

/-- C4 witness: five source authors yield the first three rendered entries
plus a trailing `"et al."` (length 4); two source authors yield exactly
those two. -/
theorem c4_author_truncation_witness :
    authorsOrUnknown (extractAuthors
      [{ lastName := some "Alm", initials := some "A" },
       { lastName := some "Berg", initials := some "B" },
       { lastName := some "Chen", initials := some "C" },
       { lastName := some "Diaz", initials := some "D" },
       { lastName := some "Egan", initials := some "E" }]) =
      ["Alm A", "Berg B", "Chen C", "et al."] ∧
    authorsOrUnknown (extractAuthors
      [{ lastName := some "Alm", initials := some "A" },
       { lastName := some "Berg", initials := some "B" }]) = ["Alm A", "Berg B"] := by
  constructor
  · exact ((c4_author_truncation.1 _ (by decide)).1).trans (by decide)
  · exact (c4_author_truncation.2.1 _ (by decide) (by decide)).trans (by decide)

/-! ## Claim C5: pubDate construction -/

/-- C5: `pubDate` is built from independently defaulted sub-fields — a
missing year defaults to the current calendar year, a missing month or day
each default to `"01"` independently — and single-digit numeric month/day
values are zero-padded, so year `"2024"`, month `"3"`, day `"7"` give
`"2024-03-07"`. -/
theorem c5_pub_date_rule :
    (∀ (currentYear : Nat) (y m d : Option String),
      formatPubDate currentYear y m d =
        jsOrElse y (Nat.repr currentYear) ++ "-" ++
          zeroPad (jsOrElse m "01") ++ "-" ++ zeroPad (jsOrElse d "01")) ∧
    (∀ currentYear : Nat,
      formatPubDate currentYear (some "2024") (some "3") (some "7") = "2024-03-07") ∧
    formatPubDate 2026 none none none = "2026-01-01" ∧
    formatPubDate 2026 none (some "3") none = "2026-03-01" ∧
    formatPubDate 2026 (some "2024") none (some "7") = "2024-01-07" ∧
    formatPubDate 2026 (some "2024") (some "3") none = "2024-03-01" := by
  refine ⟨fun _ _ _ _ => rfl, fun _ => rfl, by decide, by decide, by decide, by decide⟩

/-! ## Claim C6: trial classification -/

/-- A mutable flag set to `true` inside a loop whenever a predicate holds
equals the disjunction of the initial value and an existence check. -/
theorem foldl_flag_eq_any {α : Type} (p : α → Bool) (l : List α) (b : Bool) :
    l.foldl (fun acc x => if p x then true else acc) b = (b || l.any p) := by
  induction l generalizing b with
  | nil => simp
  | cons hd tl ih =>
    rw [List.foldl_cons, ih, List.any_cons]
    rcases hp : p hd <;> simp [hp]

/-- C6: `isTrial` is true iff at least one publication-type token
case-insensitively contains one of the four trial keywords; a lone
`"Case Report"` token gives `false`, and a `"Randomized Controlled Trial"`
token in any case gives `true`. -/
theorem c6_is_trial_rule :
    (∀ tokens : List (Option String),
      (computeIsTrial tokens = true ↔
        ∃ pt ∈ tokens, ∃ kw ∈ trialKeywords,
          jsIncludes (jsToLower (pt.getD "")) kw = true)) ∧
    computeIsTrial [some "Case Report"] = false ∧
    computeIsTrial [some "Randomized Controlled Trial"] = true ∧
    computeIsTrial [some "rAnDoMIzed cOnTRolled TRial"] = true := by
  refine ⟨?_, by decide, by decide, by decide⟩
  intro tokens
  rw [computeIsTrial, foldl_flag_eq_any]
  simp only [Bool.false_or, List.any_eq_true, tokenIsTrialLike, Bool.or_eq_true,
    trialKeywords, List.mem_cons, List.not_mem_nil, or_false, exists_eq_or_imp,
    exists_eq_left, or_assoc]

/-- C6 witness: the iff evaluated on a meta-analysis token. -/
theorem c6_is_trial_rule_witness :
    computeIsTrial [some "Review", some "Meta-Analysis"] = true := by
  exact ((c6_is_trial_rule.1 [some "Review", some "Meta-Analysis"]).mpr
    ⟨some "Meta-Analysis", by decide, "meta-analysis", by decide, by decide⟩)

/-! ## Claim C7: journal reconciliation -/

/-- C7: the raw journal title is reconciled through the fixed ordered
pattern chain (first match wins — any title containing `"New England"`
maps to the canonical NEJM value), and a title matching no pattern is kept
unmodified, never dropped or blanked: the result is either the raw string
itself or one of the seven canonical journal names. -/
theorem c7_journal_reconciliation :
    (∀ raw : String, jsIncludes raw "New England" = true → reconcileJournal raw = "NEJM") ∧
    (∀ raw : String,
      jsIncludes raw "New England" = false → raw ≠ "JAMA" →
      jsIncludes raw "Lancet" = false → raw ≠ "BMJ" →
      jsIncludes raw "Nature" = false → jsIncludes raw "Annals" = false →
      jsIncludes raw "Oncology" = false → reconcileJournal raw = raw) ∧
    (∀ raw : String, reconcileJournal raw = raw ∨ reconcileJournal raw ∈ ALL_JOURNALS) := by
  refine ⟨?_, ?_, ?_⟩
  · intro raw h
    rw [reconcileJournal, if_pos h]
  · intro raw h1 h2 h3 h4 h5 h6 h7
    rw [reconcileJournal]
    simp [h1, h2, h3, h4, h5, h6, h7]
  · intro raw
    rw [reconcileJournal]
    split_ifs <;> first | (left; rfl) | (right; decide)

/-- C7 witness: a title containing `"New England"` reconciles to NEJM; an
unknown title passes through unchanged. -/
theorem c7_journal_reconciliation_witness :
    reconcileJournal "The New England Journal of Medicine" = "NEJM" ∧
    reconcileJournal "Acta Medica Obscura" = "Acta Medica Obscura" := by
  constructor
  · exact c7_journal_reconciliation.1 _ (by decide)
  · exact c7_journal_reconciliation.2.1 _ (by decide) (by decide) (by decide) (by decide)
      (by decide) (by decide) (by decide)

/-! ## Claim C8: filter/sort idempotence -/

/-- The date comparator is total: of any two articles, one may precede the
other. -/
theorem sortLe_total (sortBy : SortOption) (a b : Article) :
    sortLe sortBy a b || sortLe sortBy b a := by
  cases sortBy <;>
    simp only [sortLe, Bool.or_eq_true, decide_eq_true_eq] <;>
    exact le_total _ _

/-- The date comparator is transitive. -/
theorem sortLe_trans (sortBy : SortOption) (a b c : Article) :
    sortLe sortBy a b → sortLe sortBy b c → sortLe sortBy a c := by
  cases sortBy
  · simp only [sortLe, decide_eq_true_eq]
    exact fun h1 h2 => le_trans h2 h1
  · simp only [sortLe, decide_eq_true_eq]
    exact fun h1 h2 => le_trans h1 h2

/-- C8: the client-side filter/sort engine is idempotent — applying
`processedArticles` to its own output with the same selected journals,
search query and sort direction returns that output unchanged (the second
filter passes everything that survived the first, and the stable sort is
the identity on an already-sorted list). -/
theorem c8_filter_sort_idempotent :
    ∀ (articles : List Article) (selectedJournals : List String)
      (searchQuery : String) (sortBy : SortOption),
      processedArticles (processedArticles articles selectedJournals searchQuery sortBy)
          selectedJournals searchQuery sortBy =
        processedArticles articles selectedJournals searchQuery sortBy := by
  intro articles selectedJournals searchQuery sortBy
  unfold processedArticles
  rw [List.filter_eq_self.mpr, List.mergeSort_of_sorted
    (List.sorted_mergeSort (fun a b c => sortLe_trans sortBy a b c)
      (fun a b => sortLe_total sortBy a b) _)]
  intro a ha
  exact List.of_mem_filter (List.mem_mergeSort.mp ha)

/-! ## Claim C9: the summary-slot writer is frame-preserving -/

/-- C9: `handleSummaryGenerated` preserves the list's length and order, and
at every position either leaves the article untouched (id mismatch) or
changes only its `cachedSummary` field, leaving every other field as it
was. -/
theorem c9_summary_frame :
    ∀ (prev : List Article) (id : String) (summary : AISummary),
      (handleSummaryGenerated prev id summary).length = prev.length ∧
      (∀ (i : Nat) (a b : Article),
        prev[i]? = some a → (handleSummaryGenerated prev id summary)[i]? = some b →
        b.id = a.id ∧ b.title = a.title ∧ b.journal = a.journal ∧
        b.authors = a.authors ∧ b.pubDate = a.pubDate ∧ b.abstract = a.abstract ∧
        b.doiLink = a.doiLink ∧ b.isTrial = a.isTrial ∧
        (a.id ≠ id → b = a) ∧ (a.id = id → b.cachedSummary = some summary)) := by
  intro prev id summary
  constructor
  · simp [handleSummaryGenerated]
  · intro i a b ha hb
    rw [handleSummaryGenerated, List.getElem?_map, ha] at hb
    simp only [Option.map_some'] at hb
    have hb2 := Option.some.inj hb
    subst hb2
    by_cases hid : a.id = id <;> simp [hid]

/-! Sample data shared by the concrete witnesses. -/

/-- A concrete synopsis. -/
def sampleSummary : AISummary :=
  { researchDesign := "Randomized, double-blind"
    studyPopulation := "100 adults"
    interventions := "Drug X vs placebo"
    endpoints := "Overall survival"
    results := "HR 0.80" }

/-- A concrete reconciled article. -/
def sampleArticleNEJM : Article :=
  { id := "pmid-1", title := "Trial of X", journal := "NEJM", authors := ["Alm A"]
    pubDate := "2024-03-07", abstract := "BACKGROUND: x"
    doiLink := "https://doi.org/10.1/x", isTrial := true, cachedSummary := none }

/-- A second concrete reconciled article. -/
def sampleArticleJAMA : Article :=
  { id := "pmid-2", title := "Study of Y", journal := "JAMA", authors := ["Berg B"]
    pubDate := "2024-01-05", abstract := "No abstract available."
    doiLink := "https://pubmed.ncbi.nlm.nih.gov/2/", isTrial := false, cachedSummary := none }

/-- C9 witness: updating `"pmid-2"` in a two-article list keeps the length,
leaves the non-matching first article untouched, and fills the matching
article's summary slot. -/
theorem c9_summary_frame_witness :
    (handleSummaryGenerated [sampleArticleNEJM, sampleArticleJAMA] "pmid-2" sampleSummary).length =
      [sampleArticleNEJM, sampleArticleJAMA].length ∧
    sampleArticleNEJM = sampleArticleNEJM ∧
    ({ sampleArticleJAMA with cachedSummary := some sampleSummary } : Article).cachedSummary =
      some sampleSummary := by
  have h := c9_summary_frame [sampleArticleNEJM, sampleArticleJAMA] "pmid-2" sampleSummary
  refine ⟨h.1, ?_, ?_⟩
  · exact (h.2 0 sampleArticleNEJM sampleArticleNEJM rfl (by decide)).2.2.2.2.2.2.2.2.1
      (by decide)
  · exact (h.2 1 sampleArticleJAMA { sampleArticleJAMA with cachedSummary := some sampleSummary }
      rfl (by decide)).2.2.2.2.2.2.2.2.2 (by decide)

/-! ## Claim C10: unreconciled journals are unselectable client-side -/

/-- C10: an article whose journal field is not one of the seven canonical
names (the normalizer passed the raw source string through unreconciled)
is excluded from the filter/sort output whenever the selected-journal set
is drawn only from the canonical enumeration — the exact-match journal
membership test makes such articles unselectable even though the
normalizer never drops them. -/
theorem c10_unreconciled_journal_unselectable :
    ∀ (articles : List Article) (selectedJournals : List String)
      (searchQuery : String) (sortBy : SortOption) (article : Article),
      (∀ j ∈ selectedJournals, j ∈ ALL_JOURNALS) →
      article.journal ∉ ALL_JOURNALS →
      article ∉ processedArticles articles selectedJournals searchQuery sortBy := by
  intro articles J Q D a hJ hnot hmem
  rw [processedArticles] at hmem
  have h1 : a ∈ articles.filter (matchesFilters J Q) := List.mem_mergeSort.mp hmem
  have h2 : matchesFilters J Q a = true := List.of_mem_filter h1
  rw [matchesFilters, Bool.and_eq_true] at h2
  have h3 : a.journal ∈ J := by simpa using h2.1
  exact hnot (hJ _ h3)

/-- C10 witness: an article whose journal is the unreconciled raw string
`"Some Obscure Journal"` is not in the output even with every canonical
journal selected. -/
theorem c10_unreconciled_journal_unselectable_witness :
    { id := "pmid-9", title := "Case report", journal := "Some Obscure Journal"
      authors := ["Chen C"], pubDate := "2024-02-02", abstract := "text"
      doiLink := "https://pubmed.ncbi.nlm.nih.gov/9/", isTrial := false
      cachedSummary := none : Article } ∉
      processedArticles
        [{ id := "pmid-9", title := "Case report", journal := "Some Obscure Journal"
           authors := ["Chen C"], pubDate := "2024-02-02", abstract := "text"
           doiLink := "https://pubmed.ncbi.nlm.nih.gov/9/", isTrial := false
           cachedSummary := none }]
        ALL_JOURNALS "" SortOption.newest :=
  c10_unreconciled_journal_unselectable _ _ _ _ _ (fun j hj => hj) (by decide)
